import Mathlib

/-!
Shallow embedding of the inventory management program (app.py): the product
variant hierarchy (Electronics / Grocery / Clothing over a common Product
base), the Inventory store keyed by product id, JSON-record serialization,
and file loading.  Python ints are modelled as `Int`, floats as `ℚ`
(no claim depends on rounding), the insertion-ordered dict as a list with
unique product ids, and exceptions as `Except` values.  Theorems settling
the specification claims follow the definitions.
-/

/-- Error kinds the program raises: the custom exception classes of app.py
plus the builtin `ValueError` and `KeyError` the code relies on. -/
inductive PyError where
  | valueError (msg : String)
  | keyError (key : String)
  | insufficientStock (available requested : Int)
  | duplicateProduct (product_id : String)
  | invalidProductData (msg : String)
  deriving DecidableEq, Repr

/-- A calendar date: the fields of a Python `datetime.date` value. -/
structure PDate where
  year : Nat
  month : Nat
  day : Nat
  deriving DecidableEq, Repr

/-- Gregorian leap-year rule, as `datetime` implements it. -/
def isLeap (y : Nat) : Bool :=
  y % 4 == 0 && (y % 100 != 0 || y % 400 == 0)

/-- Days in a month, as `datetime` validates day-of-month. -/
def daysInMonth (y m : Nat) : Nat :=
  if m = 2 then (if isLeap y then 29 else 28)
  else if m = 4 ∨ m = 6 ∨ m = 9 ∨ m = 11 then 30
  else 31

/-- The validity conditions `datetime.date` guarantees for its fields. -/
def PDate.validB (d : PDate) : Bool :=
  decide (1 ≤ d.year) && decide (d.year ≤ 9999) && decide (1 ≤ d.month) &&
    decide (d.month ≤ 12) && decide (1 ≤ d.day) &&
    decide (d.day ≤ daysInMonth d.year d.month)

/-- Strict date comparison, as Python orders `date` values. -/
def PDate.ltB (a b : PDate) : Bool :=
  decide (a.year < b.year) ||
    (a.year == b.year && (decide (a.month < b.month) ||
      (a.month == b.month && decide (a.day < b.day))))

/-- Numeric value of an ASCII digit character. -/
def digitVal (c : Char) : Nat := c.toNat - 48

/-- The ASCII digit character for `n < 10`. -/
def digitChar (n : Nat) : Char := Char.ofNat (48 + n)

/-- Two-digit zero-padded rendering of `n ≤ 99` (strftime `%m` / `%d`). -/
def pad2 (n : Nat) : List Char := [digitChar (n / 10 % 10), digitChar (n % 10)]

/-- Four-digit zero-padded rendering of `n ≤ 9999` (strftime `%Y`). -/
def pad4 (n : Nat) : List Char :=
  [digitChar (n / 1000 % 10), digitChar (n / 100 % 10),
   digitChar (n / 10 % 10), digitChar (n % 10)]

/-- `date.strftime("%Y-%m-%d")`. -/
def formatDate (d : PDate) : String :=
  ⟨pad4 d.year ++ '-' :: pad2 d.month ++ '-' :: pad2 d.day⟩

/-- One-or-two-digit numeric field of `strptime`: a two-digit value is taken
when it lies in `1..maxVal` (the `1[0-2]|0[1-9]` style alternatives), else
the match falls back to a single nonzero digit (`[1-9]`). -/
def parse2 (maxVal : Nat) : List Char → Option (Nat × List Char)
  | c1 :: c2 :: rest =>
    if c1.isDigit ∧ c2.isDigit then
      if 1 ≤ digitVal c1 * 10 + digitVal c2 ∧ digitVal c1 * 10 + digitVal c2 ≤ maxVal then
        some (digitVal c1 * 10 + digitVal c2, rest)
      else if 1 ≤ digitVal c1 then some (digitVal c1, c2 :: rest)
      else none
    else if c1.isDigit ∧ 1 ≤ digitVal c1 then some (digitVal c1, c2 :: rest)
    else none
  | [c1] => if c1.isDigit ∧ 1 ≤ digitVal c1 then some (digitVal c1, []) else none
  | [] => none

/-- `datetime.strptime(s, "%Y-%m-%d").date()`: exactly four year digits, a
literal dash, a one-or-two-digit month in 1..12, a dash, a one-or-two-digit
day in 1..31, nothing trailing; then the `date` constructor checks the year
is at least 1 and the day fits the month. -/
def parseDateChars : List Char → Option PDate
  | c1 :: c2 :: c3 :: c4 :: c5 :: rest =>
    if c1.isDigit ∧ c2.isDigit ∧ c3.isDigit ∧ c4.isDigit ∧ c5 = '-' then
      match parse2 12 rest with
      | some (m, rest2) =>
        match rest2 with
        | c6 :: rest3 =>
          if c6 = '-' then
            match parse2 31 rest3 with
            | some (dy, []) =>
              if 1 ≤ ((digitVal c1 * 10 + digitVal c2) * 10 + digitVal c3) * 10 + digitVal c4 ∧
                  dy ≤ daysInMonth
                    (((digitVal c1 * 10 + digitVal c2) * 10 + digitVal c3) * 10 + digitVal c4) m then
                some ⟨((digitVal c1 * 10 + digitVal c2) * 10 + digitVal c3) * 10 + digitVal c4,
                      m, dy⟩
              else none
            | _ => none
          else none
        | [] => none
      | none => none
    else none
  | _ => none

def parseDate (s : String) : Option PDate :=
  parseDateChars s.data

/-- The closed set of product variants, each with the common fields
(product_id, name, price, quantity_in_stock) plus its own fields. -/
inductive Product where
  | electronics (product_id name : String) (price : ℚ) (quantity_in_stock : Int)
      (warranty_years : Int) (brand : String)
  | grocery (product_id name : String) (price : ℚ) (quantity_in_stock : Int)
      (expiry_date : PDate)
  | clothing (product_id name : String) (price : ℚ) (quantity_in_stock : Int)
      (size material : String)
  deriving DecidableEq, Repr

/-- Variant discriminant (the `type` tag / Python class). -/
inductive PKind where
  | electronics
  | grocery
  | clothing
  deriving DecidableEq, Repr

def Product.product_id : Product → String
  | .electronics pid _ _ _ _ _ => pid
  | .grocery pid _ _ _ _ => pid
  | .clothing pid _ _ _ _ _ => pid

def Product.name : Product → String
  | .electronics _ nm _ _ _ _ => nm
  | .grocery _ nm _ _ _ => nm
  | .clothing _ nm _ _ _ _ => nm

def Product.price : Product → ℚ
  | .electronics _ _ pr _ _ _ => pr
  | .grocery _ _ pr _ _ => pr
  | .clothing _ _ pr _ _ _ => pr

def Product.quantity_in_stock : Product → Int
  | .electronics _ _ _ q _ _ => q
  | .grocery _ _ _ q _ => q
  | .clothing _ _ _ q _ _ => q

def Product.kind : Product → PKind
  | .electronics _ _ _ _ _ _ => .electronics
  | .grocery _ _ _ _ _ => .grocery
  | .clothing _ _ _ _ _ _ => .clothing

/-- Assignment to the private `_quantity_in_stock` field. -/
def Product.setQuantity : Product → Int → Product
  | .electronics pid nm pr _ w b, q => .electronics pid nm pr q w b
  | .grocery pid nm pr _ d, q => .grocery pid nm pr q d
  | .clothing pid nm pr _ s m, q => .clothing pid nm pr q s m

/-- Assignment to the private `_price` field. -/
def Product.setPriceRaw : Product → ℚ → Product
  | .electronics pid nm _ q w b, pr => .electronics pid nm pr q w b
  | .grocery pid nm _ q d, pr => .grocery pid nm pr q d
  | .clothing pid nm _ q s m, pr => .clothing pid nm pr q s m

/-- The `price` property setter: rejects non-positive prices. -/
def Product.set_price (p : Product) (new_price : ℚ) : Except PyError Product :=
  if new_price ≤ 0 then .error (.valueError "Price must be positive")
  else .ok (p.setPriceRaw new_price)

/-- `Product.restock`. -/
def Product.restock (p : Product) (amount : Int) : Except PyError Product :=
  if amount ≤ 0 then .error (.valueError "Restock amount must be positive")
  else .ok (p.setQuantity (p.quantity_in_stock + amount))

/-- `Product.sell`. -/
def Product.sell (p : Product) (quantity : Int) : Except PyError Product :=
  if quantity ≤ 0 then .error (.valueError "Sale quantity must be positive")
  else if p.quantity_in_stock < quantity then
    .error (.insufficientStock p.quantity_in_stock quantity)
  else .ok (p.setQuantity (p.quantity_in_stock - quantity))

/-- The state of the receiver after `sell`: updated on success, unchanged
when the call raises (the checks precede the single mutation). -/
def Product.sellPost (p : Product) (quantity : Int) : Product :=
  match p.sell quantity with
  | .ok p2 => p2
  | .error _ => p

/-- The state of the receiver after `restock`. -/
def Product.restockPost (p : Product) (amount : Int) : Product :=
  match p.restock amount with
  | .ok p2 => p2
  | .error _ => p

/-- The state of the receiver after the `price` setter. -/
def Product.setPricePost (p : Product) (new_price : ℚ) : Product :=
  match p.set_price new_price with
  | .ok p2 => p2
  | .error _ => p

/-- `Product.get_total_value`. -/
def Product.get_total_value (p : Product) : ℚ :=
  p.price * (p.quantity_in_stock : ℚ)

/-- `Grocery.is_expired`, evaluated against the given current date. -/
def Product.isExpiredGrocery (today : PDate) : Product → Bool
  | .grocery _ _ _ _ d => PDate.ltB d today
  | _ => false

/-- `Electronics.__init__`: stores every argument unvalidated. -/
def Electronics.make (product_id name : String) (price : ℚ) (quantity_in_stock : Int)
    (warranty_years : Int) (brand : String) : Product :=
  .electronics product_id name price quantity_in_stock warranty_years brand

/-- `Clothing.__init__`: stores every argument unvalidated. -/
def Clothing.make (product_id name : String) (price : ℚ) (quantity_in_stock : Int)
    (size material : String) : Product :=
  .clothing product_id name price quantity_in_stock size material

/-- `Grocery.__init__`: stores the common fields unvalidated and parses the
expiry date string, raising `ValueError` (from `strptime`) when it does not
parse. -/
def Grocery.make (product_id name : String) (price : ℚ) (quantity_in_stock : Int)
    (expiry_date : String) : Except PyError Product :=
  match parseDate expiry_date with
  | none => .error (.valueError "time data does not match format")
  | some d => .ok (.grocery product_id name price quantity_in_stock d)

/-- A persisted product record: a JSON object over the known keys, each
possibly absent (Python dict access raises `KeyError` on an absent key). -/
structure RawRecord where
  type : Option String
  product_id : Option String
  name : Option String
  price : Option ℚ
  quantity_in_stock : Option Int
  warranty_years : Option Int
  brand : Option String
  expiry_date : Option String
  size : Option String
  material : Option String
  deriving DecidableEq, Repr

/-- Dict lookup: the value when the key is present, `KeyError` otherwise. -/
def req {α : Type} (o : Option α) (key : String) : Except PyError α :=
  match o with
  | some v => .ok v
  | none => .error (.keyError key)

/-- `to_dict` of each variant: exactly the keys the source emits. -/
def Product.to_dict : Product → RawRecord
  | .electronics pid nm pr q w b =>
    ⟨some "electronics", some pid, some nm, some pr, some q, some w, some b,
      none, none, none⟩
  | .grocery pid nm pr q d =>
    ⟨some "grocery", some pid, some nm, some pr, some q, none, none,
      some (formatDate d), none, none⟩
  | .clothing pid nm pr q s m =>
    ⟨some "clothing", some pid, some nm, some pr, some q, none, none, none,
      some s, some m⟩

/-- `Electronics.from_dict`: reads each field (raising `KeyError` when
absent) and calls the constructor. -/
def Electronics.from_dict (r : RawRecord) : Except PyError Product := do
  let pid ← req r.product_id "product_id"
  let nm ← req r.name "name"
  let pr ← req r.price "price"
  let q ← req r.quantity_in_stock "quantity_in_stock"
  let w ← req r.warranty_years "warranty_years"
  let b ← req r.brand "brand"
  return Electronics.make pid nm pr q w b

/-- `Grocery.from_dict`: reads each field and calls the constructor, which
parses the expiry date. -/
def Grocery.from_dict (r : RawRecord) : Except PyError Product := do
  let pid ← req r.product_id "product_id"
  let nm ← req r.name "name"
  let pr ← req r.price "price"
  let q ← req r.quantity_in_stock "quantity_in_stock"
  let ed ← req r.expiry_date "expiry_date"
  Grocery.make pid nm pr q ed

/-- `Clothing.from_dict`. -/
def Clothing.from_dict (r : RawRecord) : Except PyError Product := do
  let pid ← req r.product_id "product_id"
  let nm ← req r.name "name"
  let pr ← req r.price "price"
  let q ← req r.quantity_in_stock "quantity_in_stock"
  let s ← req r.size "size"
  let m ← req r.material "material"
  return Clothing.make pid nm pr q s m

/-- The body of one iteration of `load_from_file` before its
`except KeyError` clause: read the `type` tag, dispatch on it (raising
`InvalidProductData` for an unknown tag), and run the variant's
`from_dict`. -/
def decodeRecordRaw (r : RawRecord) : Except PyError Product :=
  match r.type with
  | none => .error (.keyError "type")
  | some t =>
    if t = "electronics" then Electronics.from_dict r
    else if t = "grocery" then Grocery.from_dict r
    else if t = "clothing" then Clothing.from_dict r
    else .error (.invalidProductData ("Unknown product type: " ++ t))

/-- One iteration of `load_from_file` including its `except KeyError`
clause, which rewraps a `KeyError` as `InvalidProductData`; every other
exception propagates unchanged. -/
def decodeRecord (r : RawRecord) : Except PyError Product :=
  match decodeRecordRaw r with
  | .error (.keyError k) => .error (.invalidProductData ("Missing required field: " ++ k))
  | x => x

/-- The store: the insertion-ordered dict from product id to product,
modelled as the list of its values (every key equals its value's
`product_id`). -/
abbrev Inventory := List Product

/-- `Inventory.add_product`. -/
def Inventory.add_product (inv : Inventory) (product : Product) : Except PyError Inventory :=
  if inv.any (fun q => q.product_id == product.product_id) then
    .error (.duplicateProduct product.product_id)
  else .ok (inv ++ [product])

/-- The store after `add_product`: updated on success, unchanged when the
call raises. -/
def Inventory.add_productPost (inv : Inventory) (product : Product) : Inventory :=
  match Inventory.add_product inv product with
  | .ok inv2 => inv2
  | .error _ => inv

/-- `Inventory.remove_product`. -/
def Inventory.remove_product (inv : Inventory) (product_id : String) : Except PyError Inventory :=
  if inv.any (fun q => q.product_id == product_id) then
    .ok (inv.filter (fun q => !(q.product_id == product_id)))
  else .error (.keyError product_id)

/-- Python substring containment `needle in hay` on character lists. -/
def listContainsSub (hay needle : List Char) : Bool :=
  (List.range (hay.length + 1)).any (fun i => needle.isPrefixOf (hay.drop i))

/-- The search predicate of `search_by_name`:
`name.lower() in p.name.lower()`. -/
def strContainsCI (hay needle : String) : Bool :=
  listContainsSub hay.toLower.data needle.toLower.data

/-- `Inventory.search_by_name` (case-insensitive substring): the result
list paired with the store the method leaves behind. -/
def Inventory.search_by_name (inv : Inventory) (name : String) : List Product × Inventory :=
  (inv.filter (fun p => strContainsCI p.name name), inv)

/-- `Inventory.search_by_type` (`isinstance` against one variant class,
i.e. a discriminant comparison). -/
def Inventory.search_by_type (inv : Inventory) (product_type : PKind) : List Product × Inventory :=
  (inv.filter (fun p => p.kind == product_type), inv)

/-- `Inventory.list_all_products`. -/
def Inventory.list_all_products (inv : Inventory) : List Product × Inventory :=
  (inv, inv)

/-- `Inventory.total_inventory_value`. -/
def Inventory.total_inventory_value (inv : Inventory) : ℚ × Inventory :=
  ((inv.map Product.get_total_value).sum, inv)

/-- `Inventory.sell_product`: `KeyError` when the id is absent, else the
product's `sell` with its errors propagated; success updates that entry in
place. -/
def Inventory.sell_product (inv : Inventory) (product_id : String) (quantity : Int) :
    Except PyError Inventory :=
  match inv.find? (fun p => p.product_id == product_id) with
  | none => .error (.keyError product_id)
  | some p =>
    match p.sell quantity with
    | .error e => .error e
    | .ok p2 => .ok (inv.map (fun q => if q.product_id == product_id then p2 else q))

/-- `Inventory.restock_product`. -/
def Inventory.restock_product (inv : Inventory) (product_id : String) (quantity : Int) :
    Except PyError Inventory :=
  match inv.find? (fun p => p.product_id == product_id) with
  | none => .error (.keyError product_id)
  | some p =>
    match p.restock quantity with
    | .error e => .error e
    | .ok p2 => .ok (inv.map (fun q => if q.product_id == product_id then p2 else q))

/-- `Inventory.remove_expired_products` against the given current date:
walks the entries in storage order, pops each expired grocery into the
result list, leaves everything else. -/
def Inventory.remove_expired_products (today : PDate) : Inventory → List Product × Inventory
  | [] => ([], [])
  | p :: rest =>
    let r := Inventory.remove_expired_products today rest
    if p.isExpiredGrocery today then (p :: r.1, r.2) else (r.1, p :: r.2)

/-- The record-scanning loop of `load_from_file`, started from the freshly
emptied store: returns `none` and the loaded store on success, or the first
error together with the store as it stood when the error was raised. -/
def loadLoop : Inventory → List RawRecord → Option PyError × Inventory
  | inv, [] => (none, inv)
  | inv, r :: rs =>
    match decodeRecord r with
    | .error e => (some e, inv)
    | .ok p =>
      match Inventory.add_product inv p with
      | .error e => (some e, inv)
      | .ok inv2 => loadLoop inv2 rs

/-- `Inventory.load_from_file`: the prior store contents are discarded
(`self._products = {}`) before the scan begins, whatever they were. -/
def Inventory.load_from_file (_inv : Inventory) (doc : List RawRecord) :
    Option PyError × Inventory :=
  loadLoop [] doc

/-! Helper lemmas. -/

theorem req_none {α : Type} (k : String) :
    req (none : Option α) k = .error (.keyError k) := rfl

theorem req_some {α : Type} (a : α) (k : String) : req (some a) k = .ok a := rfl

theorem ok_bind {α β : Type} (a : α) (f : α → Except PyError β) :
    (Except.ok a >>= f) = f a := rfl

theorem error_bind {α β : Type} (e : PyError) (f : α → Except PyError β) :
    ((Except.error e : Except PyError α) >>= f) = .error e := rfl

theorem digitChar_isDigit : ∀ k, k < 10 → (digitChar k).isDigit = true := by decide

theorem digitVal_digitChar : ∀ k, k < 10 → digitVal (digitChar k) = k := by decide

theorem parse2_pad2 (n maxVal : Nat) (rest : List Char)
    (h1 : 1 ≤ n) (h2 : n ≤ maxVal) (h3 : n ≤ 99) :
    parse2 maxVal (pad2 n ++ rest) = some (n, rest) := by
  have ha : n / 10 % 10 < 10 := Nat.mod_lt _ (by omega)
  have hb : n % 10 < 10 := Nat.mod_lt _ (by omega)
  have hda := digitChar_isDigit _ ha
  have hdb := digitChar_isDigit _ hb
  have hva := digitVal_digitChar _ ha
  have hvb := digitVal_digitChar _ hb
  have he : n / 10 % 10 * 10 + n % 10 = n := by omega
  simp [pad2, parse2, hda, hdb, hva, hvb, he, h1, h2]

theorem daysInMonth_le_31 (y m : Nat) : daysInMonth y m ≤ 31 := by
  unfold daysInMonth
  split_ifs <;> omega

/-- Round trip of the date encoding: formatting a valid date and parsing it
back recovers the date. -/
theorem parse_formatDate (d : PDate) (h : d.validB = true) :
    parseDate (formatDate d) = some d := by
  obtain ⟨y, m, dy⟩ := d
  simp only [PDate.validB, Bool.and_eq_true, decide_eq_true_eq] at h
  obtain ⟨⟨⟨⟨⟨h1, h2⟩, h3⟩, h4⟩, h5⟩, h6⟩ := h
  have hdm : daysInMonth y m ≤ 31 := daysInMonth_le_31 y m
  have hy1 : y / 1000 % 10 < 10 := Nat.mod_lt _ (by omega)
  have hy2 : y / 100 % 10 < 10 := Nat.mod_lt _ (by omega)
  have hy3 : y / 10 % 10 < 10 := Nat.mod_lt _ (by omega)
  have hy4 : y % 10 < 10 := Nat.mod_lt _ (by omega)
  have e1 := digitChar_isDigit _ hy1
  have e2 := digitChar_isDigit _ hy2
  have e3 := digitChar_isDigit _ hy3
  have e4 := digitChar_isDigit _ hy4
  have v1 := digitVal_digitChar _ hy1
  have v2 := digitVal_digitChar _ hy2
  have v3 := digitVal_digitChar _ hy3
  have v4 := digitVal_digitChar _ hy4
  have hyrec : ((y / 1000 % 10 * 10 + y / 100 % 10) * 10 + y / 10 % 10) * 10 + y % 10 = y := by
    omega
  have hp12 : parse2 12 (pad2 m ++ '-' :: pad2 dy) = some (m, '-' :: pad2 dy) :=
    parse2_pad2 m 12 _ h3 h4 (by omega)
  have hp31 : parse2 31 (pad2 dy) = some (dy, []) := by
    have := parse2_pad2 dy 31 [] h5 (le_trans h6 hdm) (by omega)
    simpa using this
  have hdata : (formatDate ⟨y, m, dy⟩).data =
      digitChar (y / 1000 % 10) :: digitChar (y / 100 % 10) :: digitChar (y / 10 % 10) ::
        digitChar (y % 10) :: '-' :: (pad2 m ++ '-' :: pad2 dy) := by
    simp [formatDate, pad4]
  unfold parseDate
  rw [hdata]
  simp [parseDateChars, e1, e2, e3, e4, v1, v2, v3, v4, hyrec, hp12, hp31, h1, h6]

/-- A product whose stored dates are valid calendar dates; every product
the program constructs satisfies this, since `Grocery.__init__` only
stores dates obtained from a successful parse. -/
def Product.validDatesB : Product → Bool
  | .grocery _ _ _ _ d => d.validB
  | _ => true

theorem setQuantity_quantity (p : Product) (n : Int) :
    (p.setQuantity n).quantity_in_stock = n := by
  cases p <;> rfl

theorem setQuantity_price (p : Product) (n : Int) :
    (p.setQuantity n).price = p.price := by
  cases p <;> rfl

theorem setQuantity_product_id (p : Product) (n : Int) :
    (p.setQuantity n).product_id = p.product_id := by
  cases p <;> rfl

theorem setQuantity_restore (p : Product) (n : Int) :
    (p.setQuantity n).setQuantity p.quantity_in_stock = p := by
  cases p <;> rfl

theorem setPriceRaw_price (p : Product) (n : ℚ) :
    (p.setPriceRaw n).price = n := by
  cases p <;> rfl

theorem setPriceRaw_quantity (p : Product) (n : ℚ) :
    (p.setPriceRaw n).quantity_in_stock = p.quantity_in_stock := by
  cases p <;> rfl

/-- Success characterization of `sell`. -/
theorem sell_eq_ok (p p2 : Product) (q : Int) :
    p.sell q = .ok p2 ↔
      ¬q ≤ 0 ∧ ¬p.quantity_in_stock < q ∧
        p2 = p.setQuantity (p.quantity_in_stock - q) := by
  unfold Product.sell
  split_ifs with h1 h2
  · simp [h1]
  · simp [h1, h2]
  · simp [h1, h2, eq_comm]

/-- Success characterization of `restock`. -/
theorem restock_eq_ok (p p2 : Product) (a : Int) :
    p.restock a = .ok p2 ↔
      ¬a ≤ 0 ∧ p2 = p.setQuantity (p.quantity_in_stock + a) := by
  unfold Product.restock
  split_ifs with h1
  · simp [h1]
  · simp [h1, eq_comm]

/-- Success characterization of the price setter. -/
theorem set_price_eq_ok (p p2 : Product) (np : ℚ) :
    p.set_price np = .ok p2 ↔ ¬np ≤ 0 ∧ p2 = p.setPriceRaw np := by
  unfold Product.set_price
  split_ifs with h1
  · simp [h1]
  · simp [h1, eq_comm]

/-! Sample data used by witnesses and counterexamples. -/

def elecA : Product := .electronics "E1" "Laptop" 100 2 1 "Acme"

def elecA2 : Product := .electronics "E1" "Phone" 50 1 2 "Bmax"

def grocA : Product := .grocery "G1" "Milk" 2 10 ⟨2023, 2, 28⟩

def grocOld : Product := .grocery "G2" "Yogurt" 3 5 ⟨2020, 1, 1⟩

def clothA : Product := .clothing "C1" "Shirt" (51 / 2) 4 "M" "Cotton"

/-- A record with the `name` field absent. -/
def badNameRec : RawRecord :=
  ⟨some "electronics", some "E2", none, some 1, some 1, some 1, some "B",
    none, none, none⟩

/-- A grocery record whose expiry date string does not parse. -/
def badDateRec : RawRecord :=
  ⟨some "grocery", some "G9", some "Yogurt", some 1, some 1, none, none,
    some "2023-13-40", none, none⟩

/-- A document with one good record followed by one bad record. -/
def docBad : List RawRecord := [Product.to_dict elecA, badNameRec]

/-- C3 counterexample: the constructors validate nothing, so a product whose
price is not positive and whose stock is negative is constructed without
error, refuting the claim that every reachable product satisfies the
invariant. -/
theorem c3_counterexample :
    ¬(0 < (Electronics.make "E9" "X" (-1) (-2) 0 "B").price) ∧
    (Electronics.make "E9" "X" (-1) (-2) 0 "B").quantity_in_stock < 0 := by
  decide

/-- C3 (amended): once a product has positive price and non-negative stock,
every successful `sell`, `restock` and price-setter call preserves positive
price and non-negative stock; the invariant is not established at
construction, which validates nothing. -/
theorem c3_invariant_preservation (p : Product)
    (hp : 0 < p.price) (hq : 0 ≤ p.quantity_in_stock) :
    (∀ quantity p2, p.sell quantity = .ok p2 →
      0 < p2.price ∧ 0 ≤ p2.quantity_in_stock) ∧
    (∀ amount p2, p.restock amount = .ok p2 →
      0 < p2.price ∧ 0 ≤ p2.quantity_in_stock) ∧
    (∀ new_price p2, p.set_price new_price = .ok p2 →
      0 < p2.price ∧ 0 ≤ p2.quantity_in_stock) := by
  refine ⟨fun quantity p2 hok => ?_, fun amount p2 hok => ?_, fun np p2 hok => ?_⟩
  · obtain ⟨h1, h2, rfl⟩ := (sell_eq_ok p p2 quantity).mp hok
    refine ⟨by rwa [setQuantity_price], ?_⟩
    rw [setQuantity_quantity]
    omega
  · obtain ⟨h1, rfl⟩ := (restock_eq_ok p p2 amount).mp hok
    refine ⟨by rwa [setQuantity_price], ?_⟩
    rw [setQuantity_quantity]
    omega
  · obtain ⟨h1, rfl⟩ := (set_price_eq_ok p p2 np).mp hok
    refine ⟨?_, by rwa [setPriceRaw_quantity]⟩
    rw [setPriceRaw_price]
    exact lt_of_not_le h1

/-- C3 witness: the amended preservation theorem applied to a concrete
product with positive price and non-negative stock. -/
theorem c3_invariant_preservation_witness :
    0 < elecA.price ∧ 0 ≤ elecA.quantity_in_stock ∧
    (∀ p2, elecA.sell 1 = .ok p2 → 0 < p2.price ∧ 0 ≤ p2.quantity_in_stock) := by
  refine ⟨by decide, by decide, fun p2 h => ?_⟩
  exact (c3_invariant_preservation elecA (by decide) (by decide)).1 1 p2 h


/-- C4: `sell` raises `ValueError` (the InvalidArgument kind) on a
non-positive quantity, raises `InsufficientStock` carrying available and
requested amounts when the quantity exceeds the current stock, and
otherwise decreases stock by exactly the quantity; in both failure cases
the receiver is left unchanged. -/
theorem c4_sell_behavior (p : Product) (quantity : Int) :
    (quantity ≤ 0 →
      p.sell quantity = .error (.valueError "Sale quantity must be positive") ∧
      p.sellPost quantity = p) ∧
    (0 < quantity → p.quantity_in_stock < quantity →
      p.sell quantity = .error (.insufficientStock p.quantity_in_stock quantity) ∧
      p.sellPost quantity = p) ∧
    (0 < quantity → quantity ≤ p.quantity_in_stock →
      p.sell quantity = .ok (p.setQuantity (p.quantity_in_stock - quantity)) ∧
      (p.sellPost quantity).quantity_in_stock = p.quantity_in_stock - quantity) := by
  refine ⟨fun h => ?_, fun h1 h2 => ?_, fun h1 h2 => ?_⟩
  · simp [Product.sell, Product.sellPost, h]
  · have hn : ¬quantity ≤ 0 := by omega
    simp [Product.sell, Product.sellPost, hn, h2]
  · have hn : ¬quantity ≤ 0 := by omega
    have hn2 : ¬p.quantity_in_stock < quantity := by omega
    simp [Product.sell, Product.sellPost, hn, hn2, setQuantity_quantity]

/-- C4 witness: the three cases of the sell theorem at concrete inputs. -/
theorem c4_sell_behavior_witness :
    Product.sell elecA 0 = .error (.valueError "Sale quantity must be positive") ∧
    Product.sell elecA 5 =
      .error (.insufficientStock elecA.quantity_in_stock 5) ∧
    Product.sell elecA 2 =
      .ok (elecA.setQuantity (elecA.quantity_in_stock - 2)) :=
  ⟨((c4_sell_behavior elecA 0).1 (by decide)).1,
   ((c4_sell_behavior elecA 5).2.1 (by decide) (by decide)).1,
   ((c4_sell_behavior elecA 2).2.2 (by decide) (by decide)).1⟩

/-- C8: no constructor validates the common fields: for any price
(including zero and negative values) and any stock count (including
negative values) construction succeeds and stores the arguments as given;
`Grocery.__init__` can only fail on its date string, never on price or
stock. -/
theorem c8_constructors_unvalidated (pid nm : String) (pr : ℚ) (q w : Int)
    (br sz mt ds : String) (dd : PDate) (hd : parseDate ds = some dd) :
    Electronics.make pid nm pr q w br = Product.electronics pid nm pr q w br ∧
    (Electronics.make pid nm pr q w br).price = pr ∧
    (Electronics.make pid nm pr q w br).quantity_in_stock = q ∧
    Clothing.make pid nm pr q sz mt = Product.clothing pid nm pr q sz mt ∧
    (Clothing.make pid nm pr q sz mt).price = pr ∧
    (Clothing.make pid nm pr q sz mt).quantity_in_stock = q ∧
    Grocery.make pid nm pr q ds = .ok (Product.grocery pid nm pr q dd) ∧
    (Product.grocery pid nm pr q dd).price = pr ∧
    (Product.grocery pid nm pr q dd).quantity_in_stock = q := by
  refine ⟨rfl, rfl, rfl, rfl, rfl, rfl, ?_, rfl, rfl⟩
  simp [Grocery.make, hd]

/-- C8 witness: the constructor theorem at a negative price and a negative
stock count, with a date string that parses. -/
theorem c8_constructors_unvalidated_witness :
    Electronics.make "E9" "X" (-5) (-3) 0 "B" =
      Product.electronics "E9" "X" (-5) (-3) 0 "B" ∧
    Grocery.make "G9" "Y" (-5) (-3) "2024-02-29" =
      .ok (Product.grocery "G9" "Y" (-5) (-3) ⟨2024, 2, 29⟩) := by
  have h1 := c8_constructors_unvalidated "E9" "X" (-5) (-3) 0 "B" "S" "M"
    "2024-02-29" ⟨2024, 2, 29⟩ (by decide)
  have h2 := c8_constructors_unvalidated "G9" "Y" (-5) (-3) 0 "B" "S" "M"
    "2024-02-29" ⟨2024, 2, 29⟩ (by decide)
  exact ⟨h1.1, h2.2.2.2.2.2.2.1⟩

/-- C5: for every variant, deserializing the serialized record recovers the
product in every field, including the grocery expiry date (every stored
date is a valid calendar date, since it was obtained from a successful
parse). -/
theorem c5_serialize_roundtrip (p : Product) (h : p.validDatesB = true) :
    decodeRecord (Product.to_dict p) = .ok p := by
  cases p with
  | electronics pid nm pr q w b => rfl
  | grocery pid nm pr q d =>
    have hp : parseDate (formatDate d) = some d :=
      parse_formatDate d (by simpa [Product.validDatesB] using h)
    simp [decodeRecord, decodeRecordRaw, Product.to_dict, Grocery.from_dict, req,
      Grocery.make, ok_bind, hp]
  | clothing pid nm pr q s m => rfl

/-- C5 witness: the round trip at a concrete grocery product. -/
theorem c5_serialize_roundtrip_witness :
    decodeRecord (Product.to_dict grocA) = .ok grocA :=
  c5_serialize_roundtrip grocA (by decide)

/-- Whether a decode result is an `InvalidProductData` failure. -/
def isInvalidProductData : Except PyError Product → Bool
  | .error (.invalidProductData _) => true
  | _ => false

/-- Spec-side predicate (from the spec's words): a required field of the
record is absent, for the field set of its recognized type tag (or the
`type` tag itself is absent). -/
def specMissingRequiredFieldB (r : RawRecord) : Bool :=
  match r.type with
  | none => true
  | some t =>
    if t = "electronics" then
      r.product_id.isNone || r.name.isNone || r.price.isNone ||
        r.quantity_in_stock.isNone || r.warranty_years.isNone || r.brand.isNone
    else if t = "grocery" then
      r.product_id.isNone || r.name.isNone || r.price.isNone ||
        r.quantity_in_stock.isNone || r.expiry_date.isNone
    else if t = "clothing" then
      r.product_id.isNone || r.name.isNone || r.price.isNone ||
        r.quantity_in_stock.isNone || r.size.isNone || r.material.isNone
    else false

/-- Spec-side predicate (from the spec's words): the record's `type` tag is
present but not one of the three recognized tags. -/
def specUnrecognizedTypeB (r : RawRecord) : Bool :=
  match r.type with
  | none => false
  | some t => !(t == "electronics" || t == "grocery" || t == "clothing")

/-- C2 counterexample: a grocery record whose only defect is an unparseable
`expiry_date` makes deserialization fail with `ValueError` (from
`strptime`, uncaught by the `except KeyError` clause) — not with
`InvalidProductData` as the claim states. -/
theorem c2_counterexample :
    decodeRecord badDateRec =
      .error (.valueError "time data does not match format") ∧
    isInvalidProductData (decodeRecord badDateRec) = false :=
  ⟨rfl, rfl⟩

/-- C2 (amended): deserialization fails with `InvalidProductData` exactly
when a required field is absent or the type tag is unrecognized; an
unparseable grocery date also fails, but with `ValueError`, not
`InvalidProductData`. -/
theorem c2_decode_error_kind (r : RawRecord) :
    isInvalidProductData (decodeRecord r) =
      (specMissingRequiredFieldB r || specUnrecognizedTypeB r) := by
  obtain ⟨t, pid, nm, pr, q, w, b, ed, sz, mt⟩ := r
  cases t with
  | none => rfl
  | some t =>
    by_cases h1 : t = "electronics"
    · subst h1
      rcases pid with _ | pid <;> rcases nm with _ | nm <;> rcases pr with _ | pr <;>
        rcases q with _ | q <;> rcases w with _ | w <;> rcases b with _ | b <;> rfl
    · by_cases h2 : t = "grocery"
      · subst h2
        rcases pid with _ | pid <;> rcases nm with _ | nm <;> rcases pr with _ | pr <;>
          rcases q with _ | q <;> rcases ed with _ | ed <;>
          first
            | rfl
            | (cases hp : parseDate ed <;>
                simp [decodeRecord, decodeRecordRaw, Grocery.from_dict, Grocery.make,
                  req, isInvalidProductData, specMissingRequiredFieldB,
                  specUnrecognizedTypeB, ok_bind, hp])
      · by_cases h3 : t = "clothing"
        · subst h3
          rcases pid with _ | pid <;> rcases nm with _ | nm <;> rcases pr with _ | pr <;>
            rcases q with _ | q <;> rcases sz with _ | sz <;> rcases mt with _ | mt <;> rfl
        · simp [decodeRecord, decodeRecordRaw, isInvalidProductData,
            specMissingRequiredFieldB, specUnrecognizedTypeB, h1, h2, h3]

theorem filter_pid_nil (rest : List Product) (x : String)
    (hx : x ∉ rest.map Product.product_id) :
    rest.filter (fun q => q.product_id == x) = [] := by
  induction rest with
  | nil => rfl
  | cons a l ih =>
    simp only [List.map_cons, List.mem_cons, not_or] at hx
    obtain ⟨hx1, hx2⟩ := hx
    have hb : (a.product_id == x) = false :=
      beq_eq_false_iff_ne.mpr (fun h => hx1 h.symm)
    simp [List.filter_cons, hb, ih hx2]

/-- In a store with unique ids, filtering by a member's id yields exactly
that member. -/
theorem filter_pid_eq_single (inv : Inventory) (p : Product)
    (hnd : (inv.map Product.product_id).Nodup) (hmem : p ∈ inv) :
    inv.filter (fun q => q.product_id == p.product_id) = [p] := by
  induction inv with
  | nil => cases hmem
  | cons a rest ih =>
    simp only [List.map_cons, List.nodup_cons] at hnd
    obtain ⟨hna, hnr⟩ := hnd
    rcases List.mem_cons.mp hmem with h | h
    · subst h
      simp [List.filter_cons, filter_pid_nil rest p.product_id hna]
    · have hb : (a.product_id == p.product_id) = false := by
        refine beq_eq_false_iff_ne.mpr fun he => hna ?_
        rw [he]
        exact List.mem_map_of_mem Product.product_id h
      simp [List.filter_cons, hb, ih hnr h]

/-- In a store with unique ids, lookup by a member's id finds that
member. -/
theorem find_pid_eq (inv : Inventory) (p : Product)
    (hnd : (inv.map Product.product_id).Nodup) (hmem : p ∈ inv) :
    inv.find? (fun q => q.product_id == p.product_id) = some p := by
  induction inv with
  | nil => cases hmem
  | cons a rest ih =>
    simp only [List.map_cons, List.nodup_cons] at hnd
    obtain ⟨hna, hnr⟩ := hnd
    rcases List.mem_cons.mp hmem with h | h
    · subst h
      simp [List.find?_cons]
    · have hb : (a.product_id == p.product_id) = false := by
        refine beq_eq_false_iff_ne.mpr fun he => hna ?_
        rw [he]
        exact List.mem_map_of_mem Product.product_id h
      simp [List.find?_cons, hb, ih hnr h]

/-- Replacing the entry at one id with a product of the same id preserves
the stored id sequence. -/
theorem map_pid_replace (inv : Inventory) (id : String) (pnew : Product)
    (hpid : pnew.product_id = id) :
    ((inv.map fun q => if q.product_id == id then pnew else q).map
      Product.product_id) = inv.map Product.product_id := by
  rw [List.map_map]
  apply List.map_congr_left
  intro q hq
  by_cases h : q.product_id = id
  · simp [Function.comp, h, hpid]
  · simp [Function.comp, h]

/-- C6: adding a product whose id is already present fails with
`DuplicateProduct`; the store is unchanged, still holding exactly one entry
under that id, namely the first product. -/
theorem c6_duplicate_add (inv : Inventory) (p1 p2 : Product)
    (hnd : (inv.map Product.product_id).Nodup) (hmem : p1 ∈ inv)
    (hid : p2.product_id = p1.product_id) :
    Inventory.add_product inv p2 = .error (.duplicateProduct p2.product_id) ∧
    Inventory.add_productPost inv p2 = inv ∧
    (Inventory.add_productPost inv p2).filter
      (fun q => q.product_id == p2.product_id) = [p1] := by
  have hany : inv.any (fun q => q.product_id == p2.product_id) = true :=
    List.any_eq_true.mpr ⟨p1, hmem, beq_iff_eq.mpr hid.symm⟩
  have herr : Inventory.add_product inv p2 =
      .error (.duplicateProduct p2.product_id) := by
    simp [Inventory.add_product, hany]
  have hpost : Inventory.add_productPost inv p2 = inv := by
    simp [Inventory.add_productPost, herr]
  refine ⟨herr, hpost, ?_⟩
  rw [hpost, hid]
  exact filter_pid_eq_single inv p1 hnd hmem

/-- C6 witness: a second add under the id "E1" against a concrete store. -/
theorem c6_duplicate_add_witness :
    Inventory.add_product [elecA] elecA2 =
      .error (.duplicateProduct elecA2.product_id) ∧
    Inventory.add_productPost [elecA] elecA2 = [elecA] ∧
    (Inventory.add_productPost [elecA] elecA2).filter
      (fun q => q.product_id == elecA2.product_id) = [elecA] :=
  c6_duplicate_add [elecA] elecA elecA2 (by decide) (by decide) (by decide)

/-- A product with empty stock, on which no `sell` can succeed but
`restock` can. -/
def elecZero : Product := .electronics "E0" "Cable" 5 0 1 "Acme"

/-- C9: when the id is present, then for every quantity on which the
delegated `sell` succeeds, `sell_product` replaces exactly that entry with
the quantity-updated product — and independently the same for `restock`
and `restock_product`: the id sequence (hence order and key set) is
preserved, every other entry is untouched, and the updated product differs
from the old one only in `quantity_in_stock`. -/
theorem c9_stock_ops_frame (inv : Inventory) (p : Product) (id : String)
    (hnd : (inv.map Product.product_id).Nodup)
    (hmem : p ∈ inv) (hid : p.product_id = id) :
    (∀ qty p2, p.sell qty = .ok p2 →
      Inventory.sell_product inv id qty =
        .ok (inv.map fun q => if q.product_id == id then p2 else q) ∧
      p2 = p.setQuantity (p.quantity_in_stock - qty) ∧
      (∀ q ∈ inv, q.product_id ≠ id → (if q.product_id == id then p2 else q) = q) ∧
      ((inv.map fun q => if q.product_id == id then p2 else q).map Product.product_id) =
        inv.map Product.product_id) ∧
    (∀ amt p3, p.restock amt = .ok p3 →
      Inventory.restock_product inv id amt =
        .ok (inv.map fun q => if q.product_id == id then p3 else q) ∧
      p3 = p.setQuantity (p.quantity_in_stock + amt) ∧
      (∀ q ∈ inv, q.product_id ≠ id → (if q.product_id == id then p3 else q) = q) ∧
      ((inv.map fun q => if q.product_id == id then p3 else q).map Product.product_id) =
        inv.map Product.product_id) ∧
    (∀ n, (p.setQuantity n).quantity_in_stock = n) ∧
    (∀ n, (p.setQuantity n).setQuantity p.quantity_in_stock = p) := by
  have hfind : inv.find? (fun q => q.product_id == id) = some p := by
    rw [← hid]
    exact find_pid_eq inv p hnd hmem
  refine ⟨fun qty p2 hs => ?_, fun amt p3 hr => ?_,
    setQuantity_quantity p, setQuantity_restore p⟩
  · obtain ⟨hs1, hs2, hs3⟩ := (sell_eq_ok p p2 qty).mp hs
    refine ⟨?_, hs3, ?_, ?_⟩
    · simp [Inventory.sell_product, hfind, hs]
    · intro q hq hne
      simp [beq_eq_false_iff_ne.mpr hne]
    · exact map_pid_replace inv id p2 (by rw [hs3, setQuantity_product_id, hid])
  · obtain ⟨hr1, hr2⟩ := (restock_eq_ok p p3 amt).mp hr
    refine ⟨?_, hr2, ?_, ?_⟩
    · simp [Inventory.restock_product, hfind, hr]
    · intro q hq hne
      simp [beq_eq_false_iff_ne.mpr hne]
    · exact map_pid_replace inv id p3 (by rw [hr2, setQuantity_product_id, hid])

/-- C9 witness: selling one unit of "E1" in a concrete two-product store,
and restocking three units of a product whose stock is zero (a state in
which no sell can succeed). -/
theorem c9_stock_ops_frame_witness :
    Inventory.sell_product [elecA, clothA] "E1" 1 =
      .ok ([elecA, clothA].map fun q =>
        if q.product_id == "E1" then elecA.setQuantity 1 else q) ∧
    Inventory.restock_product [elecZero, clothA] "E0" 3 =
      .ok ([elecZero, clothA].map fun q =>
        if q.product_id == "E0" then elecZero.setQuantity 3 else q) := by
  have h1 := c9_stock_ops_frame [elecA, clothA] elecA "E1"
    (by decide) (by decide) rfl
  have h2 := c9_stock_ops_frame [elecZero, clothA] elecZero "E0"
    (by decide) (by decide) rfl
  exact ⟨(h1.1 1 (elecA.setQuantity 1) rfl).1,
    (h2.2.1 3 (elecZero.setQuantity 3) rfl).1⟩

/-- C7: `remove_expired_products` splits the store exactly along the
expired-grocery predicate in storage order: the returned sequence is the
expired groceries, the remaining store is everything else (order kept);
non-grocery variants are never expired, a grocery is expired exactly when
its expiry date is before the current date. -/
theorem c7_remove_expired (today : PDate) (inv : Inventory) :
    Inventory.remove_expired_products today inv =
      (inv.filter (Product.isExpiredGrocery today),
        inv.filter fun p => !Product.isExpiredGrocery today p) ∧
    (∀ pid nm pr q w b, Product.isExpiredGrocery today
        (Product.electronics pid nm pr q w b) = false) ∧
    (∀ pid nm pr q s m, Product.isExpiredGrocery today
        (Product.clothing pid nm pr q s m) = false) ∧
    (∀ pid nm pr q d, Product.isExpiredGrocery today
        (Product.grocery pid nm pr q d) = PDate.ltB d today) := by
  refine ⟨?_, fun _ _ _ _ _ _ => rfl, fun _ _ _ _ _ _ => rfl, fun _ _ _ _ _ => rfl⟩
  induction inv with
  | nil => rfl
  | cons p rest ih =>
    simp only [Inventory.remove_expired_products, ih, List.filter_cons]
    cases h : Product.isExpiredGrocery today p <;> simp [h]

/-- C10: the query operations return their result together with the store
as the method left it, and that store is the input store: no query mutates
the inventory. -/
theorem c10_queries_pure (inv : Inventory) (name : String) (kind : PKind) :
    (Inventory.search_by_name inv name).2 = inv ∧
    (Inventory.search_by_type inv kind).2 = inv ∧
    (Inventory.list_all_products inv).2 = inv ∧
    (Inventory.total_inventory_value inv).2 = inv :=
  ⟨rfl, rfl, rfl, rfl⟩

/-- A failing load stops at the first bad record with the store holding
exactly the products loaded from the preceding records. -/
theorem loadLoop_failure_split (doc : List RawRecord) :
    ∀ (acc st : Inventory) (e : PyError),
      loadLoop acc doc = (some e, st) →
      ∃ docPre docSuf, doc = docPre ++ docSuf ∧ loadLoop acc docPre = (none, st) := by
  induction doc with
  | nil =>
    intro acc st e h
    simp [loadLoop] at h
  | cons r rs ih =>
    intro acc st e h
    rw [loadLoop] at h
    cases hd : decodeRecord r with
    | error e2 =>
      rw [hd] at h
      simp only [Prod.mk.injEq] at h
      refine ⟨[], r :: rs, rfl, ?_⟩
      rw [loadLoop, h.2]
    | ok p =>
      rw [hd] at h
      dsimp only at h
      cases ha : Inventory.add_product acc p with
      | error e2 =>
        rw [ha] at h
        simp only [Prod.mk.injEq] at h
        refine ⟨[], r :: rs, rfl, ?_⟩
        rw [loadLoop, h.2]
      | ok acc2 =>
        rw [ha] at h
        obtain ⟨docPre, docSuf, hsplit, hpre⟩ := ih acc2 st e h
        refine ⟨r :: docPre, docSuf, by rw [hsplit, List.cons_append], ?_⟩
        rw [loadLoop, hd]
        dsimp only
        rw [ha]
        dsimp only
        exact hpre

/-- C1 counterexample: loading a document whose second record is bad fails
but leaves the store holding the first record's product — not empty as the
claim states. -/
theorem c1_counterexample :
    (Inventory.load_from_file [grocA] docBad).1 =
      some (PyError.invalidProductData "Missing required field: name") ∧
    (Inventory.load_from_file [grocA] docBad).2 ≠ ([] : Inventory) := by
  refine ⟨rfl, ?_⟩
  decide

/-- C1 (amended): a failing load discards the prior store contents
regardless of what they were, and leaves the store holding exactly the
products successfully decoded and added from the records before the first
bad one (so it is empty only when the first record is bad). -/
theorem c1_load_failure_state (invPrior invPrior2 : Inventory) (doc : List RawRecord)
    (e : PyError) (st : Inventory)
    (hfail : Inventory.load_from_file invPrior doc = (some e, st)) :
    Inventory.load_from_file invPrior2 doc = (some e, st) ∧
    ∃ docPre docSuf, doc = docPre ++ docSuf ∧
      Inventory.load_from_file invPrior2 docPre = (none, st) := by
  refine ⟨hfail, ?_⟩
  exact loadLoop_failure_split doc [] st e hfail

/-- C1 witness: the amended load theorem at the concrete two-record
document, starting from a non-empty prior store. -/
theorem c1_load_failure_state_witness :
    Inventory.load_from_file [] docBad =
      (some (PyError.invalidProductData "Missing required field: name"), [elecA]) ∧
    ∃ docPre docSuf, docBad = docPre ++ docSuf ∧
      Inventory.load_from_file [] docPre = (none, [elecA]) :=
  c1_load_failure_state [grocA] [] docBad
    (PyError.invalidProductData "Missing required field: name") [elecA] rfl
